import Mathlib

/-!
# eBird rare-bird viewer: filter / sort / render pipeline of `src/app.js`

A shallow embedding of the client-side pipeline: the record store
(`allSightings`, `filteredSightings`), the filter (`applyFilters`,
`resetFilters`), the sort applied by `updateTable`, the markup built by
`updateTable` and `updateMap`, the summary cards and the event handlers
installed by `setupEventListeners`.

Conventions of the embedding

* A JSON value read from `data/sightings.json` is a `JVal`.  A number is a
  `JNum`: a rational number or one of the two infinities.  Every value of the
  Number type other than `NaN` is one of these (the two zeros are one value:
  the code cannot tell them apart), and `NaN` is the `none` of an
  `Option JNum`.
* Strings are Lean strings, that is, well-formed Unicode text.  The source
  compares strings by their UTF-16 code units, so the comparison `valA < valB`
  of two strings is the lexicographic order of `utf16 valA` and `utf16 valB`.
* Functions of the JavaScript host that the code calls but does not define
  (`String.prototype.toLowerCase`, the string-to-number conversion behind
  `Number(..)`, the locale formatters) are the fields of a `Host`; every
  general theorem holds for every host.  `asciiHost` is a concrete host used
  to evaluate the code on concrete inputs.
* Module-level variables and the DOM regions the code reads or writes are the
  fields of `State`; every function of the source that has an effect is a
  function `State → State`.
-/

namespace EBird

/-! ## JavaScript values -/

/-- A value of the Number type other than `NaN`: a rational number, `⊤` for
`Infinity` or `⊥` for `-Infinity`. -/
abbrev JNum : Type := WithBot (WithTop ℚ)

/-- The finite number `q`. -/
def JNum.ofRat (q : ℚ) : JNum :=
  ((q : WithTop ℚ) : WithBot (WithTop ℚ))

/-- A value stored in a field of a parsed JSON record; `undefined` is what
reading an absent property yields. -/
inductive JVal where
  | undefined
  | null
  | bool (b : Bool)
  | num (x : JNum)
  | str (s : String)
  deriving DecidableEq

/-- Functions of the JavaScript host used by `app.js`. -/
structure Host where
  /-- `String.prototype.toLowerCase`. -/
  toLowerCase : String → String
  /-- The lower-casing of the empty string is the empty string. -/
  toLowerCase_empty : toLowerCase "" = ""
  /-- String-to-number conversion used by `Number(s)`; `none` is `NaN`. -/
  stringToNumber : String → Option JNum
  /-- The empty string converts to zero. -/
  stringToNumber_empty : stringToNumber "" = some 0
  /-- Number-to-string conversion used by `String(x)` and by template
  literals. -/
  numberToString : JNum → String
  /-- `new Date(v).toLocaleDateString('en-US', ..)` as used by `formatDate`. -/
  toLocaleDateString : JVal → String
  /-- `Number.prototype.toLocaleString()` on an array length. -/
  toLocaleString : Nat → String

/-- JavaScript truthiness (`ToBoolean`). -/
def truthy : JVal → Bool
  | .undefined => false
  | .null => false
  | .bool b => b
  | .num x => decide (x ≠ 0)
  | .str s => s != ""

/-- The expression `a || b`. -/
def jsOr (a b : JVal) : JVal :=
  if truthy a then a else b

/-- String conversion (`String(v)` and template-literal interpolation). -/
def toStr (h : Host) : JVal → String
  | .undefined => "undefined"
  | .null => "null"
  | .bool true => "true"
  | .bool false => "false"
  | .num x => h.numberToString x
  | .str s => s

/-- The conversion `Number(v)`; `none` is `NaN`. -/
def toNumber (h : Host) : JVal → Option JNum
  | .undefined => none
  | .null => some 0
  | .bool true => some 1
  | .bool false => some 0
  | .num x => some x
  | .str s => h.stringToNumber s

/-- The expression `x || 0` on the result of `Number(..)`: `NaN` and `0` are
falsy. -/
def numOrZero : Option JNum → JNum
  | none => 0
  | some x => x

/-- The UTF-16 code units of a character: one unit below `0x10000`, a
surrogate pair otherwise. -/
def utf16Char (c : Char) : List Nat :=
  if c.toNat < 0x10000 then [c.toNat]
  else [0xD800 + (c.toNat - 0x10000) / 0x400, 0xDC00 + (c.toNat - 0x10000) % 0x400]

/-- The UTF-16 code units of a string, which is what the source compares
when it compares two strings with `<` or `>`. -/
def utf16 (s : String) : List Nat :=
  s.data.flatMap utf16Char

/-- Whether `pat` is an initial segment of `text`. -/
def startsWithChars : List Char → List Char → Bool
  | _, [] => true
  | [], _ :: _ => false
  | c :: cs, p :: ps => c == p && startsWithChars cs ps

/-- Whether `pat` occurs in `text` as a contiguous block. -/
def includesChars : List Char → List Char → Bool
  | [], pat => pat.isEmpty
  | c :: cs, pat => startsWithChars (c :: cs) pat || includesChars cs pat

/-- The method call `text.includes(pat)`. -/
def includes (text pat : String) : Bool :=
  includesChars text.data pat.data

/-! ## A concrete host -/

/-- Value of a non-empty string of decimal digits. -/
def digitsValue : List Char → Option Nat
  | [] => none
  | cs => if cs.all Char.isDigit then
      some (cs.foldl (fun acc c => 10 * acc + (c.toNat - 48)) 0) else none

/-- String-to-number conversion of a host that knows only integers: the
empty string is zero, a decimal integer literal is its value, and every other
string is read as `NaN`. -/
def parseDecimal (s : String) : Option JNum :=
  match s.data with
  | [] => some 0
  | '-' :: cs => (digitsValue cs).map (fun n => JNum.ofRat (-(n : ℚ)))
  | cs => (digitsValue cs).map (fun n => JNum.ofRat (n : ℚ))

/-- Number-to-string conversion, exact on the infinities and on integers; a
number that is not an integer is printed as a fraction. -/
def printNumber (x : JNum) : String :=
  if x = ⊥ then "-Infinity"
  else if x = ⊤ then "Infinity"
  else
    let q : ℚ := (x.unbot' 0).untop' 0
    if q.den = 1 then toString q.num else toString q.num ++ "/" ++ toString q.den

/-- A host for ASCII data with integer numbers: ASCII lower-casing, decimal
integer literals, integers printed in decimal, lengths below one thousand
printed without separators.  Dates are left unformatted; no evaluation below
depends on them. -/
def asciiHost : Host where
  toLowerCase := fun s => ⟨s.data.map Char.toLower⟩
  toLowerCase_empty := rfl
  stringToNumber := parseDecimal
  stringToNumber_empty := rfl
  numberToString := printNumber
  toLocaleDateString := fun v =>
    match v with
    | .str s => s
    | _ => "Invalid Date"
  toLocaleString := fun n => toString n

/-! ## Data model -/

/-- One observation record of `data.sightings`. -/
structure Sighting where
  comName : JVal := .undefined
  sciName : JVal := .undefined
  speciesCode : JVal := .undefined
  locId : JVal := .undefined
  locName : JVal := .undefined
  lat : JVal := .undefined
  lng : JVal := .undefined
  obsDt : JVal := .undefined
  howMany : JVal := .undefined
  speciesLink : JVal := .undefined
  checklistLink : JVal := .undefined
  deriving DecidableEq

/-- Property access `sighting[col]`. -/
def Sighting.get (s : Sighting) (col : String) : JVal :=
  if col = "comName" then s.comName
  else if col = "sciName" then s.sciName
  else if col = "speciesCode" then s.speciesCode
  else if col = "locId" then s.locId
  else if col = "locName" then s.locName
  else if col = "lat" then s.lat
  else if col = "lng" then s.lng
  else if col = "obsDt" then s.obsDt
  else if col = "howMany" then s.howMany
  else if col = "speciesLink" then s.speciesLink
  else if col = "checklistLink" then s.checklistLink
  else .undefined

/-- The parsed document `data/sightings.json`; `sightings = none` is an
absent `sightings` property. -/
structure Dataset where
  sightings : Option (List Sighting)
  lastUpdated : JVal := .undefined
  region : JVal := .undefined
  daysBack : JVal := .undefined

/-- Values of the variable `sortDirection`. -/
inductive SortDirection where
  | asc
  | desc
  deriving DecidableEq

/-- A marker added to `markerCluster`. -/
structure Marker where
  lat : JVal
  lng : JVal
  popup : String
  deriving DecidableEq

/-- Text of the four summary cards. -/
structure SummaryCards where
  totalSightings : String
  uniqueSpecies : String
  uniqueLocations : String
  daysCovered : String
  deriving DecidableEq

/-- Module state of `app.js` together with the DOM regions it reads and
writes. -/
structure State where
  /-- Variable `allSightings`. -/
  allSightings : List Sighting := []
  /-- Variable `filteredSightings`. -/
  filteredSightings : List Sighting := []
  /-- Variable `sortColumn`. -/
  sortColumn : String := "obsDt"
  /-- Variable `sortDirection`. -/
  sortDirection : SortDirection := .desc
  /-- Value of the control `#species-filter`. -/
  speciesFilter : String := ""
  /-- Value of the control `#search-filter`. -/
  searchFilter : String := ""
  /-- Whether the timer started by the debounced search handler is pending. -/
  searchTimeout : Bool := false
  /-- Layers of `markerCluster`. -/
  markers : List Marker := []
  /-- Content of `#sightings-body` (`innerHTML`). -/
  sightingsBody : String := ""
  /-- Summary cards, `none` until `updateSummaryCards` has run. -/
  summary : Option SummaryCards := none
  deriving DecidableEq

/-! ## Utilities of the source -/

/-- Serialisation of a text node by `innerHTML`. -/
def escapeChar (c : Char) : List Char :=
  if c = '&' then "&amp;".data
  else if c = '<' then "&lt;".data
  else if c = '>' then "&gt;".data
  else if c = ' ' then "&nbsp;".data
  else [c]

/-- Function `escapeHtml`: falsy input yields the empty string, otherwise the
text is assigned to `textContent` of a fresh element and read back through
`innerHTML`. -/
def escapeHtml (h : Host) (text : JVal) : String :=
  if !truthy text then "" else ⟨(toStr h text).data.flatMap escapeChar⟩

/-- Function `formatDate`. -/
def formatDate (h : Host) (dateStr : JVal) : String :=
  if !truthy dateStr then "-" else h.toLocaleDateString dateStr

/-! ## Filter engine -/

/-- The text searched by `applyFilters`:
the template `comName sciName locName`, lower-cased. -/
def searchableText (h : Host) (s : Sighting) : String :=
  h.toLowerCase
    (toStr h s.comName ++ " " ++ toStr h s.sciName ++ " " ++ toStr h s.locName)

/-- The callback passed to `allSightings.filter` in `applyFilters`;
`searchFilter` is already lower-cased. -/
def keepSighting (h : Host) (speciesFilter searchFilter : String) (s : Sighting) : Bool :=
  if speciesFilter ≠ "" ∧ s.comName ≠ .str speciesFilter then false
  else if searchFilter ≠ "" then
    if !includes (searchableText h s) searchFilter then false else true
  else true

/-- The filtered subset computed by `applyFilters` from a dataset and the
values of the two controls. -/
def filterSightings (h : Host) (species search : String) (d : List Sighting) :
    List Sighting :=
  d.filter (keepSighting h species (h.toLowerCase search))

/-! ## Sort engine -/

/-- The method `Array.prototype.sort(cmp)`: a stable sort, each element being
placed before the first element of the sorted remainder that `cmp` does not
put strictly before it. -/
def jsSort {α : Type} (cmp : α → α → Int) (l : List α) : List α :=
  List.insertionSort (fun a b => cmp a b ≤ 0) l

/-- The last three statements of the comparison callback of `updateTable`:
`lt` is `valA < valB`, `gt` is `valA > valB`. -/
def compareResult (dir : SortDirection) (lt gt : Bool) : Int :=
  if lt then (if dir = .asc then -1 else 1)
  else if gt then (if dir = .asc then 1 else -1)
  else 0

/-- The comparison callback of `updateTable` for sort column `col` and
direction `dir`; strings are compared by their UTF-16 code units. -/
def compareFn (h : Host) (col : String) (dir : SortDirection) (a b : Sighting) : Int :=
  let valA := jsOr (a.get col) (.str "")
  let valB := jsOr (b.get col) (.str "")
  if col = "howMany" then
    let valA := numOrZero (toNumber h valA)
    let valB := numOrZero (toNumber h valB)
    compareResult dir (decide (valA < valB)) (decide (valA > valB))
  else
    let valA := h.toLowerCase (toStr h valA)
    let valB := h.toLowerCase (toStr h valB)
    compareResult dir (decide (utf16 valA < utf16 valB)) (decide (utf16 valA > utf16 valB))

/-- The constant `sortedData` of `updateTable` for a given sequence. -/
def sortSightings (h : Host) (col : String) (dir : SortDirection) (l : List Sighting) :
    List Sighting :=
  jsSort (compareFn h col dir) l

/-- The value a record is compared by on the count column. -/
def countKey (h : Host) (s : Sighting) : JNum :=
  numOrZero (toNumber h (jsOr s.howMany (.str "")))

/-- The value a record is compared by on a column other than the count
column. -/
def textKey (h : Host) (col : String) (s : Sighting) : String :=
  h.toLowerCase (toStr h (jsOr (s.get col) (.str "")))

/-- A comparison key: a number on the count column, a string elsewhere. -/
inductive SortKey where
  | num (x : JNum)
  | str (s : String)
  deriving DecidableEq

/-- The comparison key of a record for a sort column. -/
def sortKey (h : Host) (col : String) (s : Sighting) : SortKey :=
  if col = "howMany" then .num (countKey h s) else .str (textKey h col s)

/-- Order of comparison keys of the same kind: numbers by value, strings by
their UTF-16 code units. -/
def SortKey.le : SortKey → SortKey → Prop
  | .num a, .num b => a ≤ b
  | .str a, .str b => utf16 a ≤ utf16 b
  | _, _ => False

/-! ## Rendering -/

/-- The popup markup built by `updateMap` for one record. -/
def popupContent (h : Host) (s : Sighting) : String :=
  String.join [
    "\n                <div class=\"popup-content\">",
    "\n                    <h3>", escapeHtml h s.comName, "</h3>",
    "\n                    <p class=\"sci-name\">", escapeHtml h s.sciName, "</p>",
    "\n                    <p><strong>Location:</strong> ", escapeHtml h s.locName, "</p>",
    "\n                    <p><strong>Date:</strong> ", formatDate h s.obsDt, "</p>",
    "\n                    <p><strong>Count:</strong> ", toStr h (jsOr s.howMany (.num 1)), "</p>",
    "\n                    <p>",
    "\n                        <a href=\"", toStr h s.speciesLink,
      "\" target=\"_blank\">Species Info</a>",
    "\n                        ",
      (if truthy s.checklistLink then
        String.join ["| <a href=\"", toStr h s.checklistLink,
          "\" target=\"_blank\">Checklist</a>"]
       else ""),
    "\n                    </p>",
    "\n                </div>",
    "\n            "]

/-- The markup of one table row built by `updateTable`. -/
def rowHtml (h : Host) (s : Sighting) : String :=
  String.join [
    "\n        <tr>",
    "\n            <td>",
    "\n                <span class=\"species-name\">", escapeHtml h s.comName, "</span>",
    "\n                <br><span class=\"sci-name\">", escapeHtml h s.sciName, "</span>",
    "\n            </td>",
    "\n            <td>", escapeHtml h s.locName, "</td>",
    "\n            <td>", formatDate h s.obsDt, "</td>",
    "\n            <td>", toStr h (jsOr s.howMany (.num 1)), "</td>",
    "\n            <td>",
    "\n                <a href=\"", toStr h s.speciesLink,
      "\" target=\"_blank\" title=\"Species Info\">Species</a>",
    "\n                ",
      (if truthy s.checklistLink then
        String.join ["<a href=\"", toStr h s.checklistLink,
          "\" target=\"_blank\" title=\"View Checklist\">Checklist</a>"]
       else ""),
    "\n            </td>",
    "\n        </tr>",
    "\n    "]

/-- The marker `updateMap` adds for a record, if any: the test is
`sighting.lat && sighting.lng`. -/
def markerOf (h : Host) (s : Sighting) : Option Marker :=
  if truthy s.lat && truthy s.lng then
    some { lat := s.lat, lng := s.lng, popup := popupContent h s }
  else none

/-- Function `updateMap`: the cluster is cleared and refilled from
`filteredSightings` (the viewport is not modelled). -/
def updateMap (h : Host) (st : State) : State :=
  { st with markers := st.filteredSightings.filterMap (markerOf h) }

/-- The constant `sortedData` of `updateTable`: a sorted copy of
`filteredSightings`. -/
def sortedData (h : Host) (st : State) : List Sighting :=
  sortSightings h st.sortColumn st.sortDirection st.filteredSightings

/-- The rows `updateTable` joins into the table body. -/
def tableRows (h : Host) (st : State) : List String :=
  (sortedData h st).map (rowHtml h)

/-- The markup `updateTable` assigns to the table body for the sorted
sequence `sorted`: a placeholder row when it is empty, the joined rows
otherwise. -/
def tableBody (h : Host) (sorted : List Sighting) : String :=
  if sorted.length = 0 then
    "<tr><td colspan=\"5\" class=\"loading\">No sightings match your filters.</td></tr>"
  else
    String.join (sorted.map (rowHtml h))

/-- Function `updateTable` (the header indicator classes are not modelled). -/
def updateTable (h : Host) (st : State) : State :=
  { st with sightingsBody := tableBody h (sortedData h st) }

/-- The expression `new Set(values).size`. -/
def distinctCount (values : List JVal) : Nat :=
  values.dedup.length

/-- Function `updateSummaryCards`. -/
def updateSummaryCards (h : Host) (data : Dataset) (st : State) : State :=
  let sightings := data.sightings.getD []
  { st with summary := some {
      totalSightings := h.toLocaleString sightings.length
      uniqueSpecies := toString (distinctCount (sightings.map (fun s => s.speciesCode)))
      uniqueLocations := toString (distinctCount (sightings.map (fun s => s.locId)))
      daysCovered := toStr h (jsOr data.daysBack (.str "-")) } }

/-! ## Operations on the state -/

/-- Function `applyFilters`. -/
def applyFilters (h : Host) (st : State) : State :=
  let speciesFilter := st.speciesFilter
  let searchFilter := h.toLowerCase st.searchFilter
  let st1 := { st with
    filteredSightings := st.allSightings.filter (keepSighting h speciesFilter searchFilter) }
  updateTable h (updateMap h st1)

/-- Function `resetFilters`. -/
def resetFilters (h : Host) (st : State) : State :=
  let st1 := { st with
    speciesFilter := "", searchFilter := "", filteredSightings := st.allSightings }
  updateTable h (updateMap h st1)

/-- The click handler installed on a header cell whose `data-sort` is
`column`. -/
def clickHeader (h : Host) (column : String) (st : State) : State :=
  let st1 :=
    if st.sortColumn = column then
      { st with sortDirection := if st.sortDirection = .asc then .desc else .asc }
    else
      { st with sortColumn := column, sortDirection := .asc }
  updateTable h st1

/-- Function `loadData`; `response = none` is a failed fetch or a document
that does not parse.  The header texts and the options of the species
control, which no other function reads, are not modelled. -/
def loadData (h : Host) (response : Option Dataset) (st : State) : State :=
  match response with
  | some data =>
    let all := data.sightings.getD []
    let st1 := { st with allSightings := all, filteredSightings := all }
    updateTable h (updateMap h (updateSummaryCards h data st1))
  | none =>
    { st with sightingsBody :=
        "<tr><td colspan=\"5\" class=\"loading\">No data available. Run the scraper first.</td></tr>" }

/-- What can happen after `setupEventListeners` has run. -/
inductive Event where
  /-- The user selects `value` in `#species-filter` (`change`). -/
  | speciesChange (value : String)
  /-- The user edits `#search-filter` to `value` (`input`). -/
  | searchInput (value : String)
  /-- The timer started by the debounced search handler expires. -/
  | searchTimer
  /-- The user clicks `#reset-filters`. -/
  | resetClick
  /-- The user clicks the header cell of `column`. -/
  | headerClick (column : String)
  deriving DecidableEq

/-- Effect of one event.  The search handler is `debounce(applyFilters, 300)`:
an `input` event only (re)starts the timer, and `applyFilters` runs when the
timer expires. -/
def step (h : Host) (st : State) : Event → State
  | .speciesChange v => applyFilters h { st with speciesFilter := v }
  | .searchInput v => { st with searchFilter := v, searchTimeout := true }
  | .searchTimer =>
    if st.searchTimeout then applyFilters h { st with searchTimeout := false } else st
  | .resetClick => resetFilters h st
  | .headerClick c => clickHeader h c st

/-- Effect of a sequence of events. -/
def run (h : Host) (st : State) (events : List Event) : State :=
  events.foldl (step h) st


/-! ## The specification's wording of the filter predicate -/

/-- The record predicate in the words of the specification: the species must
match exactly, and the search text is looked for in the lower-cased
concatenation of common name, scientific name and location name. -/
def specKeep (h : Host) (species search : String) (r : Sighting) : Bool :=
  decide ((species = "" ∨ r.comName = .str species) ∧
    (search = "" ∨
      includes
        (h.toLowerCase (toStr h r.comName ++ toStr h r.sciName ++ toStr h r.locName))
        (h.toLowerCase search) = true))

/-! ## Invariants of the record store -/

/-- The filtered subset agrees with the controls unless a debounced search
input is still waiting for its timer. -/
def FilterInSync (h : Host) (st : State) : Prop :=
  st.searchTimeout = false →
    st.filteredSightings =
      filterSightings h st.speciesFilter st.searchFilter st.allSightings

/-- The filtered subset is the filter of the full dataset under some
criteria. -/
def FilterOfAll (h : Host) (st : State) : Prop :=
  ∃ species search, st.filteredSightings = filterSightings h species search st.allSightings

/-! ## Concrete records -/

/-- A record with coordinates whose common name and links carry markup. -/
def injectedSighting : Sighting :=
  { comName := .str "<b>Gull</b>",
    lat := .num 43,
    lng := .num (JNum.ofRat (-75)),
    speciesLink := .str "\"><script>alert(1)</script>",
    checklistLink := .str "\"><img src=x>" }

/-- A record observed on the equator. -/
def equatorSighting : Sighting :=
  { comName := .str "Snowy Owl", lat := .num 0, lng := .num (JNum.ofRat (-75)) }

/-! ## Basic facts -/

theorem includesChars_nil (text : List Char) : includesChars text [] = true := by
  cases text <;> simp [includesChars, startsWithChars]

theorem includes_empty (text : String) : includes text "" = true := by
  simp [includes, includesChars_nil]

theorem keepSighting_iff (h : Host) (species search : String) (r : Sighting) :
    keepSighting h species (h.toLowerCase search) r = true ↔
      (species = "" ∨ r.comName = .str species) ∧
      (search = "" ∨ includes (searchableText h r) (h.toLowerCase search) = true) := by
  unfold keepSighting
  by_cases hs : species = ""
  · by_cases hq : h.toLowerCase search = ""
    · simp [hs, hq, includes_empty]
    · have hne : search ≠ "" := by
        intro he
        exact hq (by rw [he, h.toLowerCase_empty])
      simp [hs, hq, hne]
  · by_cases hc : r.comName = .str species
    · by_cases hq : h.toLowerCase search = ""
      · simp [hs, hc, hq, includes_empty]
      · have hne : search ≠ "" := by
          intro he
          exact hq (by rw [he, h.toLowerCase_empty])
        simp [hs, hc, hq, hne]
    · simp [hs, hc]

@[simp] theorem updateMap_allSightings (h : Host) (st : State) :
    (updateMap h st).allSightings = st.allSightings := rfl

@[simp] theorem updateMap_filteredSightings (h : Host) (st : State) :
    (updateMap h st).filteredSightings = st.filteredSightings := rfl

@[simp] theorem updateMap_sortColumn (h : Host) (st : State) :
    (updateMap h st).sortColumn = st.sortColumn := rfl

@[simp] theorem updateMap_sortDirection (h : Host) (st : State) :
    (updateMap h st).sortDirection = st.sortDirection := rfl

@[simp] theorem updateMap_speciesFilter (h : Host) (st : State) :
    (updateMap h st).speciesFilter = st.speciesFilter := rfl

@[simp] theorem updateMap_searchFilter (h : Host) (st : State) :
    (updateMap h st).searchFilter = st.searchFilter := rfl

@[simp] theorem updateMap_searchTimeout (h : Host) (st : State) :
    (updateMap h st).searchTimeout = st.searchTimeout := rfl

@[simp] theorem updateMap_summary (h : Host) (st : State) :
    (updateMap h st).summary = st.summary := rfl

@[simp] theorem updateMap_markers (h : Host) (st : State) :
    (updateMap h st).markers = st.filteredSightings.filterMap (markerOf h) := rfl

@[simp] theorem updateTable_allSightings (h : Host) (st : State) :
    (updateTable h st).allSightings = st.allSightings := rfl

@[simp] theorem updateTable_filteredSightings (h : Host) (st : State) :
    (updateTable h st).filteredSightings = st.filteredSightings := rfl

@[simp] theorem updateTable_sortColumn (h : Host) (st : State) :
    (updateTable h st).sortColumn = st.sortColumn := rfl

@[simp] theorem updateTable_sortDirection (h : Host) (st : State) :
    (updateTable h st).sortDirection = st.sortDirection := rfl

@[simp] theorem updateTable_speciesFilter (h : Host) (st : State) :
    (updateTable h st).speciesFilter = st.speciesFilter := rfl

@[simp] theorem updateTable_searchFilter (h : Host) (st : State) :
    (updateTable h st).searchFilter = st.searchFilter := rfl

@[simp] theorem updateTable_searchTimeout (h : Host) (st : State) :
    (updateTable h st).searchTimeout = st.searchTimeout := rfl

@[simp] theorem updateTable_summary (h : Host) (st : State) :
    (updateTable h st).summary = st.summary := rfl

@[simp] theorem updateTable_markers (h : Host) (st : State) :
    (updateTable h st).markers = st.markers := rfl

@[simp] theorem updateTable_sightingsBody (h : Host) (st : State) :
    (updateTable h st).sightingsBody = tableBody h (sortedData h st) := rfl

theorem clickHeader_sightingsBody (h : Host) (c : String) (st : State) :
    (clickHeader h c st).sightingsBody = tableBody h (sortedData h (clickHeader h c st)) := by
  unfold clickHeader
  split <;> rfl

@[simp] theorem applyFilters_filteredSightings (h : Host) (st : State) :
    (applyFilters h st).filteredSightings =
      filterSightings h st.speciesFilter st.searchFilter st.allSightings := by
  simp [applyFilters, filterSightings]

@[simp] theorem applyFilters_allSightings (h : Host) (st : State) :
    (applyFilters h st).allSightings = st.allSightings := by
  simp [applyFilters]

@[simp] theorem applyFilters_speciesFilter (h : Host) (st : State) :
    (applyFilters h st).speciesFilter = st.speciesFilter := by
  simp [applyFilters]

@[simp] theorem applyFilters_searchFilter (h : Host) (st : State) :
    (applyFilters h st).searchFilter = st.searchFilter := by
  simp [applyFilters]

@[simp] theorem applyFilters_searchTimeout (h : Host) (st : State) :
    (applyFilters h st).searchTimeout = st.searchTimeout := by
  simp [applyFilters]

@[simp] theorem applyFilters_summary (h : Host) (st : State) :
    (applyFilters h st).summary = st.summary := by
  simp [applyFilters]

@[simp] theorem applyFilters_sortColumn (h : Host) (st : State) :
    (applyFilters h st).sortColumn = st.sortColumn := by
  simp [applyFilters]

@[simp] theorem applyFilters_sortDirection (h : Host) (st : State) :
    (applyFilters h st).sortDirection = st.sortDirection := by
  simp [applyFilters]

theorem filterSightings_empty (h : Host) (d : List Sighting) :
    filterSightings h "" "" d = d := by
  unfold filterSightings
  rw [List.filter_eq_self]
  intro r _
  simp [keepSighting, h.toLowerCase_empty]


/-! ## Filter engine: claims C1 and C9 -/

/-- Amended C1: for every dataset and every pair of criteria, the subset
computed by `applyFilters` is the sub-sequence of the dataset, in its order,
of exactly the records whose common name equals the species (when one is
selected) and whose lower-cased text `comName sciName locName`, the three
fields separated by single spaces, contains the lower-cased search text (when
one is given); with both criteria empty the result is the whole dataset. -/
theorem applyFilters_spec (h : Host) (st : State) :
    (applyFilters h st).filteredSightings =
        st.allSightings.filter (fun r => decide
          ((st.speciesFilter = "" ∨ r.comName = .str st.speciesFilter) ∧
           (st.searchFilter = "" ∨
              includes
                (h.toLowerCase
                  (toStr h r.comName ++ " " ++ toStr h r.sciName ++ " " ++
                    toStr h r.locName))
                (h.toLowerCase st.searchFilter) = true))) ∧
      List.Sublist (applyFilters h st).filteredSightings st.allSightings ∧
      (st.speciesFilter = "" → st.searchFilter = "" →
        (applyFilters h st).filteredSightings = st.allSightings) := by
  refine ⟨?_, ?_, ?_⟩
  · rw [applyFilters_filteredSightings]
    unfold filterSightings
    apply List.filter_congr
    intro r _
    rw [Bool.eq_iff_iff, keepSighting_iff]
    simp [searchableText]
  · rw [applyFilters_filteredSightings]
    exact List.filter_sublist _
  · intro h1 h2
    rw [applyFilters_filteredSightings, h1, h2, filterSightings_empty]

/-- The hypotheses of `applyFilters_spec` hold on a one-record dataset with
both controls empty. -/
theorem applyFilters_spec_witness :
    ({ allSightings := [{ comName := .str "Snowy Owl" }] } : State).speciesFilter = "" ∧
      ({ allSightings := [{ comName := .str "Snowy Owl" }] } : State).searchFilter = "" ∧
      (applyFilters asciiHost
        { allSightings := [{ comName := .str "Snowy Owl" }] }).filteredSightings =
      [{ comName := .str "Snowy Owl" }] :=
  ⟨rfl, rfl, (applyFilters_spec asciiHost
    { allSightings := [{ comName := .str "Snowy Owl" }] }).2.2 rfl rfl⟩

/-- C1 as stated fails: with names `ab`, `cd`, `ef` and search text `bc`, the
plain concatenation `abcdef` contains the search text, so the stated predicate
keeps the record, while `applyFilters` searches `ab cd ef` and drops it. -/
theorem applyFilters_not_plain_concatenation :
    (applyFilters asciiHost
        { allSightings := [{ comName := .str "ab", sciName := .str "cd", locName := .str "ef" }],
          searchFilter := "bc" }).filteredSightings = [] ∧
      List.filter (specKeep asciiHost "" "bc")
        [{ comName := .str "ab", sciName := .str "cd", locName := .str "ef" }] =
        [{ comName := .str "ab", sciName := .str "cd", locName := .str "ef" }] := by
  decide

/-- C9: filtering is idempotent.  Filtering the filtered subset again with the
same criteria returns it unchanged, and running `applyFilters` a second time
with unchanged controls leaves the whole state as the first run left it. -/
theorem filter_idempotent (h : Host) (species search : String) (d : List Sighting)
    (st : State) :
    filterSightings h species search (filterSightings h species search d) =
        filterSightings h species search d ∧
      applyFilters h (applyFilters h st) = applyFilters h st := by
  constructor
  · simp [filterSightings, List.filter_filter]
  · simp only [applyFilters, updateMap_allSightings, updateTable_allSightings,
      updateMap_speciesFilter, updateTable_speciesFilter, updateMap_searchFilter,
      updateTable_searchFilter]
    simp only [updateTable, updateMap, sortedData]

/-! ## Sort state: claim C8 -/

/-- C8: a click on the header of the active column keeps the column and flips
the direction, so two such clicks restore the sort state, the sorted sequence
and the table body; a click on the header of another column makes that column
active with ascending direction, whatever the direction was. -/
theorem clickHeader_spec (h : Host) (st : State) (c : String) :
    (clickHeader h st.sortColumn st).sortColumn = st.sortColumn ∧
      (clickHeader h st.sortColumn st).sortDirection ≠ st.sortDirection ∧
      (clickHeader h st.sortColumn (clickHeader h st.sortColumn st)).sortColumn =
        st.sortColumn ∧
      (clickHeader h st.sortColumn (clickHeader h st.sortColumn st)).sortDirection =
        st.sortDirection ∧
      sortedData h (clickHeader h st.sortColumn (clickHeader h st.sortColumn st)) =
        sortedData h st ∧
      (clickHeader h st.sortColumn (clickHeader h st.sortColumn st)).sightingsBody =
        (updateTable h st).sightingsBody ∧
      (c ≠ st.sortColumn →
        (clickHeader h c st).sortColumn = c ∧
        (clickHeader h c st).sortDirection = .asc) := by
  have e1 : (clickHeader h st.sortColumn st).sortColumn = st.sortColumn := by
    simp [clickHeader]
  have e2 : (clickHeader h st.sortColumn st).sortDirection =
      if st.sortDirection = .asc then .desc else .asc := by
    simp [clickHeader]
  have e3 : (clickHeader h st.sortColumn st).filteredSightings = st.filteredSightings := by
    simp [clickHeader]
  have e4 : (clickHeader h st.sortColumn (clickHeader h st.sortColumn st)).sortColumn =
      st.sortColumn := by
    simp [clickHeader]
  have e5 : (clickHeader h st.sortColumn (clickHeader h st.sortColumn st)).sortDirection =
      st.sortDirection := by
    cases hd : st.sortDirection <;> simp [clickHeader, hd]
  have e6 : (clickHeader h st.sortColumn
      (clickHeader h st.sortColumn st)).filteredSightings = st.filteredSightings := by
    simp [clickHeader]
  have e7 : sortedData h (clickHeader h st.sortColumn (clickHeader h st.sortColumn st)) =
      sortedData h st := by
    simp only [sortedData, e4, e5, e6]
  refine ⟨e1, ?_, e4, e5, e7, ?_, ?_⟩
  · rw [e2]
    cases st.sortDirection <;> simp
  · rw [clickHeader_sightingsBody, e7, updateTable_sightingsBody]
  · intro hc
    have hc2 : ¬ st.sortColumn = c := fun e => hc e.symm
    simp [clickHeader, hc2]

/-- The hypothesis of `clickHeader_spec` holds for the initial sort state and
the count column. -/
theorem clickHeader_spec_witness :
    ("howMany" : String) ≠ ({} : State).sortColumn ∧
      (clickHeader asciiHost "howMany" {}).sortColumn = "howMany" ∧
      (clickHeader asciiHost "howMany" {}).sortDirection = .asc :=
  ⟨by decide, (clickHeader_spec asciiHost {} "howMany").2.2.2.2.2.2 (by decide)⟩


/-! ## Record store and summary: claims C7 and C10 -/

@[simp] theorem resetFilters_allSightings (h : Host) (st : State) :
    (resetFilters h st).allSightings = st.allSightings := rfl

@[simp] theorem resetFilters_filteredSightings (h : Host) (st : State) :
    (resetFilters h st).filteredSightings = st.allSightings := rfl

@[simp] theorem resetFilters_speciesFilter (h : Host) (st : State) :
    (resetFilters h st).speciesFilter = "" := rfl

@[simp] theorem resetFilters_searchFilter (h : Host) (st : State) :
    (resetFilters h st).searchFilter = "" := rfl

@[simp] theorem resetFilters_searchTimeout (h : Host) (st : State) :
    (resetFilters h st).searchTimeout = st.searchTimeout := rfl

@[simp] theorem resetFilters_summary (h : Host) (st : State) :
    (resetFilters h st).summary = st.summary := rfl

@[simp] theorem clickHeader_allSightings (h : Host) (c : String) (st : State) :
    (clickHeader h c st).allSightings = st.allSightings := by
  unfold clickHeader; split <;> rfl

@[simp] theorem clickHeader_filteredSightings (h : Host) (c : String) (st : State) :
    (clickHeader h c st).filteredSightings = st.filteredSightings := by
  unfold clickHeader; split <;> rfl

@[simp] theorem clickHeader_speciesFilter (h : Host) (c : String) (st : State) :
    (clickHeader h c st).speciesFilter = st.speciesFilter := by
  unfold clickHeader; split <;> rfl

@[simp] theorem clickHeader_searchFilter (h : Host) (c : String) (st : State) :
    (clickHeader h c st).searchFilter = st.searchFilter := by
  unfold clickHeader; split <;> rfl

@[simp] theorem clickHeader_searchTimeout (h : Host) (c : String) (st : State) :
    (clickHeader h c st).searchTimeout = st.searchTimeout := by
  unfold clickHeader; split <;> rfl

@[simp] theorem clickHeader_summary (h : Host) (c : String) (st : State) :
    (clickHeader h c st).summary = st.summary := by
  unfold clickHeader; split <;> rfl

theorem step_allSightings (h : Host) (st : State) (e : Event) :
    (step h st e).allSightings = st.allSightings := by
  cases e with
  | searchTimer =>
    show (if st.searchTimeout then applyFilters h { st with searchTimeout := false }
      else st).allSightings = st.allSightings
    by_cases ht : st.searchTimeout = true
    · rw [if_pos ht]; simp
    · rw [if_neg ht]
  | _ => simp [step]

theorem step_summary (h : Host) (st : State) (e : Event) :
    (step h st e).summary = st.summary := by
  cases e with
  | searchTimer =>
    show (if st.searchTimeout then applyFilters h { st with searchTimeout := false }
      else st).summary = st.summary
    by_cases ht : st.searchTimeout = true
    · rw [if_pos ht]; simp
    · rw [if_neg ht]
  | _ => simp [step]

theorem run_allSightings (h : Host) (events : List Event) (st : State) :
    (run h st events).allSightings = st.allSightings := by
  induction events generalizing st with
  | nil => rfl
  | cons e es ih =>
    show (run h (step h st e) es).allSightings = st.allSightings
    rw [ih, step_allSightings]

theorem run_summary (h : Host) (events : List Event) (st : State) :
    (run h st events).summary = st.summary := by
  induction events generalizing st with
  | nil => rfl
  | cons e es ih =>
    show (run h (step h st e) es).summary = st.summary
    rw [ih, step_summary]

theorem step_filterInSync (h : Host) (st : State) (e : Event) (hs : FilterInSync h st) :
    FilterInSync h (step h st e) := by
  cases e with
  | speciesChange v => intro _; simp [step]
  | searchInput v => intro ht; simp [step] at ht
  | searchTimer =>
    show FilterInSync h
      (if st.searchTimeout then applyFilters h { st with searchTimeout := false } else st)
    by_cases ht : st.searchTimeout = true
    · rw [if_pos ht]; intro _; simp
    · rw [if_neg ht]; exact hs
  | resetClick => intro _; simp [step, filterSightings_empty]
  | headerClick c =>
    intro ht
    simp only [step, clickHeader_searchTimeout] at ht
    simpa [step] using hs ht

theorem step_filterOfAll (h : Host) (st : State) (e : Event) (hs : FilterOfAll h st) :
    FilterOfAll h (step h st e) := by
  cases e with
  | speciesChange v => exact ⟨v, st.searchFilter, by simp [step]⟩
  | searchInput v =>
    obtain ⟨sp, se, hq⟩ := hs
    exact ⟨sp, se, hq⟩
  | searchTimer =>
    show FilterOfAll h
      (if st.searchTimeout then applyFilters h { st with searchTimeout := false } else st)
    by_cases ht : st.searchTimeout = true
    · rw [if_pos ht]; exact ⟨st.speciesFilter, st.searchFilter, by simp⟩
    · rw [if_neg ht]; exact hs
  | resetClick => exact ⟨"", "", by simp [step, filterSightings_empty]⟩
  | headerClick c =>
    obtain ⟨sp, se, hq⟩ := hs
    exact ⟨sp, se, by simpa [step] using hq⟩

theorem run_filterInSync (h : Host) (events : List Event) (st : State)
    (hs : FilterInSync h st) : FilterInSync h (run h st events) := by
  induction events generalizing st with
  | nil => exact hs
  | cons e es ih => exact ih (step h st e) (step_filterInSync h st e hs)

theorem run_filterOfAll (h : Host) (events : List Event) (st : State)
    (hs : FilterOfAll h st) : FilterOfAll h (run h st events) := by
  induction events generalizing st with
  | nil => exact hs
  | cons e es ih => exact ih (step h st e) (step_filterOfAll h st e hs)

@[simp] theorem loadData_allSightings (h : Host) (data : Dataset) (st : State) :
    (loadData h (some data) st).allSightings = data.sightings.getD [] := rfl

@[simp] theorem loadData_filteredSightings (h : Host) (data : Dataset) (st : State) :
    (loadData h (some data) st).filteredSightings = data.sightings.getD [] := rfl

@[simp] theorem loadData_speciesFilter (h : Host) (data : Dataset) (st : State) :
    (loadData h (some data) st).speciesFilter = st.speciesFilter := rfl

@[simp] theorem loadData_searchFilter (h : Host) (data : Dataset) (st : State) :
    (loadData h (some data) st).searchFilter = st.searchFilter := rfl

/-- Amended C7: after a successful load and any sequence of events, the full
dataset is the loaded one, unchanged; the filtered subset is always a filter
of the full dataset, and it is the filter under the current values of the two
controls whenever no debounced search input is pending (the controls being
empty when the load completes); a header click changes neither the full
dataset nor the filtered subset. -/
theorem store_invariant (h : Host) (data : Dataset) (st0 : State) (events : List Event)
    (c : String) :
    (run h (loadData h (some data) st0) events).allSightings = data.sightings.getD [] ∧
      FilterOfAll h (run h (loadData h (some data) st0) events) ∧
      (st0.speciesFilter = "" → st0.searchFilter = "" →
        (run h (loadData h (some data) st0) events).searchTimeout = false →
        (run h (loadData h (some data) st0) events).filteredSightings =
          filterSightings h (run h (loadData h (some data) st0) events).speciesFilter
            (run h (loadData h (some data) st0) events).searchFilter
            (run h (loadData h (some data) st0) events).allSightings) ∧
      (step h (run h (loadData h (some data) st0) events) (.headerClick c)).allSightings =
        (run h (loadData h (some data) st0) events).allSightings ∧
      (step h (run h (loadData h (some data) st0) events) (.headerClick c)).filteredSightings =
        (run h (loadData h (some data) st0) events).filteredSightings := by
  refine ⟨?_, ?_, ?_, ?_, ?_⟩
  · rw [run_allSightings, loadData_allSightings]
  · apply run_filterOfAll
    exact ⟨"", "", by simp [filterSightings_empty]⟩
  · intro h1 h2
    apply run_filterInSync
    intro _
    simp [h1, h2, filterSightings_empty]
  · simp [step]
  · simp [step]

/-- The hypotheses of `store_invariant` hold for a load into the initial state
followed by a search input whose timer has expired. -/
theorem store_invariant_witness :
    ({} : State).speciesFilter = "" ∧ ({} : State).searchFilter = "" ∧
      (run asciiHost
        (loadData asciiHost
          (some { sightings := some [{ comName := .str "Great Blue Heron" },
                                     { comName := .str "Snowy Owl" }] }) {})
        [.searchInput "heron", .searchTimer]).searchTimeout = false ∧
      (run asciiHost
        (loadData asciiHost
          (some { sightings := some [{ comName := .str "Great Blue Heron" },
                                     { comName := .str "Snowy Owl" }] }) {})
        [.searchInput "heron", .searchTimer]).filteredSightings =
        filterSightings asciiHost
          (run asciiHost
            (loadData asciiHost
              (some { sightings := some [{ comName := .str "Great Blue Heron" },
                                         { comName := .str "Snowy Owl" }] }) {})
            [.searchInput "heron", .searchTimer]).speciesFilter
          (run asciiHost
            (loadData asciiHost
              (some { sightings := some [{ comName := .str "Great Blue Heron" },
                                         { comName := .str "Snowy Owl" }] }) {})
            [.searchInput "heron", .searchTimer]).searchFilter
          (run asciiHost
            (loadData asciiHost
              (some { sightings := some [{ comName := .str "Great Blue Heron" },
                                         { comName := .str "Snowy Owl" }] }) {})
            [.searchInput "heron", .searchTimer]).allSightings :=
  ⟨rfl, rfl, by decide,
    (store_invariant asciiHost
      { sightings := some [{ comName := .str "Great Blue Heron" },
                           { comName := .str "Snowy Owl" }] } {}
      [.searchInput "heron", .searchTimer] "obsDt").2.2.1 rfl rfl (by decide)⟩

/-- C7 as stated fails: after a load of two records, an edit of the search box
to `heron` leaves the filtered subset at both records until the debounce timer
expires, while the filter of the full dataset under the current criteria is
the single heron record. -/
theorem filtered_not_in_sync_while_debouncing :
    (run asciiHost
        (loadData asciiHost
          (some { sightings := some [{ comName := .str "Great Blue Heron" },
                                     { comName := .str "Snowy Owl" }] }) {})
        [.searchInput "heron"]).filteredSightings =
        [{ comName := .str "Great Blue Heron" }, { comName := .str "Snowy Owl" }] ∧
      filterSightings asciiHost
        (run asciiHost
          (loadData asciiHost
            (some { sightings := some [{ comName := .str "Great Blue Heron" },
                                       { comName := .str "Snowy Owl" }] }) {})
          [.searchInput "heron"]).speciesFilter
        (run asciiHost
          (loadData asciiHost
            (some { sightings := some [{ comName := .str "Great Blue Heron" },
                                       { comName := .str "Snowy Owl" }] }) {})
          [.searchInput "heron"]).searchFilter
        (run asciiHost
          (loadData asciiHost
            (some { sightings := some [{ comName := .str "Great Blue Heron" },
                                       { comName := .str "Snowy Owl" }] }) {})
          [.searchInput "heron"]).allSightings =
        [{ comName := .str "Great Blue Heron" }] := by
  decide

/-- C10: after a load of dataset `data`, the summary cards show the number of
records, the number of distinct species codes and the number of distinct
location ids of the full dataset, and no later event changes them. -/
theorem summary_spec (h : Host) (data : Dataset) (st0 : State) (events : List Event) :
    (run h (loadData h (some data) st0) events).summary =
      some {
        totalSightings := h.toLocaleString (data.sightings.getD []).length
        uniqueSpecies :=
          toString ((data.sightings.getD []).map (fun s => s.speciesCode)).toFinset.card
        uniqueLocations :=
          toString ((data.sightings.getD []).map (fun s => s.locId)).toFinset.card
        daysCovered := toStr h (jsOr data.daysBack (.str "-")) } := by
  rw [run_summary]
  simp [loadData, updateSummaryCards, distinctCount, List.card_toFinset]

/-! ## Sort engine: claims C2, C5 and C6 -/

theorem compareResult_asc_le {κ : Type} [LinearOrder κ] (x y : κ) :
    compareResult .asc (decide (x < y)) (decide (x > y)) ≤ 0 ↔ x ≤ y := by
  unfold compareResult
  rcases lt_trichotomy x y with hlt | heq | hgt
  · simp [hlt, le_of_lt hlt]
  · subst heq; simp
  · have h1 : ¬ x < y := not_lt_of_gt hgt
    have h2 : ¬ x ≤ y := not_le_of_gt hgt
    simp [h1, h2, hgt]

theorem compareResult_desc_le {κ : Type} [LinearOrder κ] (x y : κ) :
    compareResult .desc (decide (x < y)) (decide (x > y)) ≤ 0 ↔ y ≤ x := by
  unfold compareResult
  rcases lt_trichotomy x y with hlt | heq | hgt
  · have h2 : ¬ y ≤ x := not_le_of_gt hlt
    simp [hlt, h2]
  · subst heq; simp
  · have h1 : ¬ x < y := not_lt_of_gt hgt
    simp [h1, hgt, le_of_lt hgt]

theorem compareFn_count (h : Host) (dir : SortDirection) (a b : Sighting) :
    compareFn h "howMany" dir a b =
      compareResult dir (decide (countKey h a < countKey h b))
        (decide (countKey h a > countKey h b)) := by
  simp [compareFn, countKey, Sighting.get]

theorem compareFn_text (h : Host) (col : String) (hc : col ≠ "howMany") (dir : SortDirection)
    (a b : Sighting) :
    compareFn h col dir a b =
      compareResult dir (decide (utf16 (textKey h col a) < utf16 (textKey h col b)))
        (decide (utf16 (textKey h col a) > utf16 (textKey h col b))) := by
  simp [compareFn, textKey, hc]

theorem compareFn_asc_le (h : Host) (col : String) (a b : Sighting) :
    compareFn h col .asc a b ≤ 0 ↔ (sortKey h col a).le (sortKey h col b) := by
  by_cases hc : col = "howMany"
  · subst hc
    rw [compareFn_count, compareResult_asc_le]
    simp [sortKey, SortKey.le]
  · rw [compareFn_text h col hc, compareResult_asc_le]
    simp [sortKey, hc, SortKey.le]

theorem compareFn_desc_le (h : Host) (col : String) (a b : Sighting) :
    compareFn h col .desc a b ≤ 0 ↔ (sortKey h col b).le (sortKey h col a) := by
  by_cases hc : col = "howMany"
  · subst hc
    rw [compareFn_count, compareResult_desc_le]
    simp [sortKey, SortKey.le]
  · rw [compareFn_text h col hc, compareResult_desc_le]
    simp [sortKey, hc, SortKey.le]

theorem sortKey_le_total (h : Host) (col : String) (a b : Sighting) :
    (sortKey h col a).le (sortKey h col b) ∨ (sortKey h col b).le (sortKey h col a) := by
  by_cases hc : col = "howMany"
  · simp only [sortKey, hc, if_true, SortKey.le]
    exact le_total _ _
  · simp only [sortKey, hc, if_false, SortKey.le]
    exact le_total _ _

theorem sortKey_le_trans {x y z : SortKey} (h1 : x.le y) (h2 : y.le z) : x.le z := by
  cases x <;> cases y <;> cases z <;> simp only [SortKey.le] at h1 h2 ⊢
  · exact le_trans h1 h2
  · exact le_trans h1 h2

theorem char_toNat_valid (c : Char) :
    c.toNat < 0xD800 ∨ (0xDFFF < c.toNat ∧ c.toNat < 0x110000) := by
  have h := c.valid
  simpa [UInt32.isValidChar, Nat.isValidChar, Char.toNat] using h

theorem char_eq_of_toNat_eq {c d : Char} (h : c.toNat = d.toNat) : c = d := by
  apply Char.ext
  apply UInt32.ext
  exact h

/-- Different texts have different UTF-16 code units. -/
theorem utf16Chars_injective :
    ∀ l1 l2 : List Char, l1.flatMap utf16Char = l2.flatMap utf16Char → l1 = l2
  | [], [], _ => rfl
  | [], c :: l, h => by
    simp only [List.flatMap_nil, List.flatMap_cons, utf16Char] at h
    split_ifs at h <;> simp at h
  | c :: l, [], h => by
    simp only [List.flatMap_nil, List.flatMap_cons, utf16Char] at h
    split_ifs at h <;> simp at h
  | c :: l1, d :: l2, h => by
    have hc := char_toNat_valid c
    have hd := char_toNat_valid d
    simp only [List.flatMap_cons, utf16Char] at h
    split_ifs at h with h1 h2 h2
    · simp only [List.singleton_append, List.cons.injEq] at h
      rw [char_eq_of_toNat_eq h.1, utf16Chars_injective l1 l2 h.2]
    · simp only [List.singleton_append, List.cons_append, List.cons.injEq] at h
      omega
    · simp only [List.singleton_append, List.cons_append, List.cons.injEq] at h
      omega
    · simp only [List.cons_append, List.nil_append, List.cons.injEq] at h
      have e : c.toNat = d.toNat := by omega
      rw [char_eq_of_toNat_eq e, utf16Chars_injective l1 l2 h.2.2]

theorem utf16_injective {a b : String} (h : utf16 a = utf16 b) : a = b :=
  String.ext (utf16Chars_injective _ _ h)

theorem sortKey_le_antisymm {x y : SortKey} (h1 : x.le y) (h2 : y.le x) : x = y := by
  cases x <;> cases y <;> simp only [SortKey.le] at h1 h2
  · exact congrArg _ (le_antisymm h1 h2)
  · exact congrArg _ (utf16_injective (le_antisymm h1 h2))

theorem jsSort_perm {α : Type} (cmp : α → α → Int) (l : List α) :
    (jsSort cmp l).Perm l :=
  List.perm_insertionSort _ l

/-- A comparator that decides a total, transitive relation sorts by it. -/
theorem jsSort_sorted {α : Type} (cmp : α → α → Int) (R : α → α → Prop)
    (hR : ∀ a b, cmp a b ≤ 0 ↔ R a b) (htot : ∀ a b, R a b ∨ R b a)
    (htrans : ∀ a b c, R a b → R b c → R a c) (l : List α) :
    List.Sorted R (jsSort cmp l) := by
  haveI : IsTotal α (fun a b => cmp a b ≤ 0) :=
    ⟨fun a b => by simpa [hR] using htot a b⟩
  haveI : IsTrans α (fun a b => cmp a b ≤ 0) :=
    ⟨fun a b c h1 h2 => (hR a c).2 (htrans a b c ((hR a b).1 h1) ((hR b c).1 h2))⟩
  have hs : List.Sorted (fun a b => cmp a b ≤ 0) (jsSort cmp l) :=
    List.sorted_insertionSort _ l
  exact List.Pairwise.imp (fun {a b} hab => (hR a b).1 hab) hs

theorem sortSightings_perm (h : Host) (col : String) (dir : SortDirection)
    (l : List Sighting) : (sortSightings h col dir l).Perm l :=
  jsSort_perm _ l

theorem sortSightings_asc_sorted (h : Host) (col : String) (l : List Sighting) :
    List.Sorted (fun a b => (sortKey h col a).le (sortKey h col b))
      (sortSightings h col .asc l) :=
  jsSort_sorted _ _ (compareFn_asc_le h col) (sortKey_le_total h col)
    (fun _ _ _ h1 h2 => sortKey_le_trans h1 h2) l

theorem sortSightings_desc_sorted (h : Host) (col : String) (l : List Sighting) :
    List.Sorted (fun a b => (sortKey h col b).le (sortKey h col a))
      (sortSightings h col .desc l) :=
  jsSort_sorted _ _ (compareFn_desc_le h col) (fun a b => sortKey_le_total h col b a)
    (fun _ _ _ h1 h2 => sortKey_le_trans h2 h1) l

/-- Strings are ordered by code unit, not by code point: `U+1F600` is the
surrogate pair `D83D DE00` and sorts before `U+FF5E`. -/
theorem sortSightings_by_code_units :
    sortSightings asciiHost "comName" .asc
        [{ comName := .str "～" }, { comName := .str "😀" }] =
      [{ comName := .str "😀" }, { comName := .str "～" }] := by
  decide

/-- A count given as the string `12.5` is compared as the number 12.5 by the
comparator of any host that converts it so. -/
theorem countKey_fractional (h : Host)
    (hn : h.stringToNumber "12.5" = some (JNum.ofRat (25 / 2))) :
    countKey h { howMany := .str "12.5" } = JNum.ofRat (25 / 2) := by
  simp [countKey, jsOr, truthy, toNumber, hn, numOrZero]

theorem eq_of_map_eq_of_injOn {α β : Type} (f : α → β) :
    ∀ (l1 l2 : List α), l1.map f = l2.map f →
      (∀ x ∈ l1, ∀ y ∈ l2, f x = f y → x = y) → l1 = l2
  | [], [], _, _ => rfl
  | [], _ :: _, hm, _ => by simp at hm
  | _ :: _, [], hm, _ => by simp at hm
  | a :: l1, b :: l2, hm, hinj => by
    simp only [List.map_cons, List.cons.injEq] at hm
    have hab : a = b := hinj a (List.mem_cons_self _ _) b (List.mem_cons_self _ _) hm.1
    have ht : l1 = l2 := eq_of_map_eq_of_injOn f l1 l2 hm.2
      (fun x hx y hy => hinj x (List.mem_cons_of_mem _ hx) y (List.mem_cons_of_mem _ hy))
    rw [hab, ht]

theorem sortKey_count_falsy (h : Host) (r : Sighting) (hf : truthy r.howMany = false) :
    sortKey h "howMany" r = .num 0 := by
  simp [sortKey, countKey, jsOr, hf, toNumber, h.stringToNumber_empty, numOrZero]

/-- C2: the table body written by `updateTable` is the rows, in order, of a
sequence that is a permutation of the filtered subset (which is left as it
was) and is ordered by the comparison keys of the active column,
non-decreasing when the direction is ascending and non-increasing when it is
descending.  On the count column the key is the count as a number, a missing
or non-numeric count giving zero; on every other column the key is the
lower-cased string value, a missing value giving the empty string; numbers
are ordered by value and strings by their UTF-16 code units. -/
theorem updateTable_sort_spec (h : Host) (st : State) (r : Sighting) (col s t : String)
    (n m : JNum) :
    (sortedData h st).Perm st.filteredSightings ∧
      (updateTable h st).filteredSightings = st.filteredSightings ∧
      (sortedData h st ≠ [] →
        (updateTable h st).sightingsBody =
          String.join ((sortedData h st).map (rowHtml h))) ∧
      (sortedData h st = [] →
        (updateTable h st).sightingsBody =
          "<tr><td colspan=\"5\" class=\"loading\">No sightings match your filters.</td></tr>") ∧
      (st.sortDirection = .asc →
        List.Sorted (fun a b => (sortKey h st.sortColumn a).le (sortKey h st.sortColumn b))
          (sortedData h st)) ∧
      (st.sortDirection = .desc →
        List.Sorted (fun a b => (sortKey h st.sortColumn b).le (sortKey h st.sortColumn a))
          (sortedData h st)) ∧
      (r.howMany = .num n → sortKey h "howMany" r = .num n) ∧
      (r.howMany = .undefined → sortKey h "howMany" r = .num 0) ∧
      (r.howMany = .str s → h.stringToNumber s = none → sortKey h "howMany" r = .num 0) ∧
      (r.howMany = .str s → h.stringToNumber s = some n → sortKey h "howMany" r = .num n) ∧
      (col ≠ "howMany" → r.get col = .str s → sortKey h col r = .str (h.toLowerCase s)) ∧
      (col ≠ "howMany" → r.get col = .undefined → sortKey h col r = .str "") ∧
      ((SortKey.num n).le (SortKey.num m) ↔ n ≤ m) ∧
      ((SortKey.str s).le (SortKey.str t) ↔ utf16 s ≤ utf16 t) := by
  refine ⟨sortSightings_perm _ _ _ _, rfl, ?_, ?_, ?_, ?_, ?_, ?_, ?_, ?_, ?_, ?_,
    Iff.rfl, Iff.rfl⟩
  · intro hne
    have hl : ¬ (sortedData h st).length = 0 := by
      simpa [List.length_eq_zero] using hne
    simp [tableBody, hl]
  · intro he
    simp [tableBody, he]
  · intro hd
    unfold sortedData
    rw [hd]
    exact sortSightings_asc_sorted h _ _
  · intro hd
    unfold sortedData
    rw [hd]
    exact sortSightings_desc_sorted h _ _
  · intro hn
    by_cases h0 : n = 0
    · subst h0
      exact sortKey_count_falsy h r (by simp [hn, truthy])
    · simp [sortKey, countKey, jsOr, hn, truthy, h0, toNumber, numOrZero]
  · intro hu
    exact sortKey_count_falsy h r (by simp [hu, truthy])
  · intro hs hnan
    by_cases h0 : s = ""
    · exact sortKey_count_falsy h r (by simp [hs, truthy, h0])
    · simp [sortKey, countKey, jsOr, hs, truthy, h0, toNumber, hnan, numOrZero]
  · intro hs hnum
    by_cases h0 : s = ""
    · subst h0
      rw [h.stringToNumber_empty] at hnum
      cases hnum
      exact sortKey_count_falsy h r (by simp [hs, truthy])
    · simp [sortKey, countKey, jsOr, hs, truthy, h0, toNumber, hnum, numOrZero]
  · intro hc hs
    by_cases h0 : s = ""
    · simp [sortKey, hc, textKey, jsOr, hs, truthy, h0, toStr]
    · simp [sortKey, hc, textKey, jsOr, hs, truthy, h0, toStr]
  · intro hc hu
    simp [sortKey, hc, textKey, jsOr, hu, truthy, toStr, h.toLowerCase_empty]

/-- The hypotheses of `updateTable_sort_spec` hold for three records sorted by
descending count, one of them without a count. -/
theorem updateTable_sort_spec_witness :
    ({ filteredSightings := [{ howMany := .num 2 }, { }, { howMany := .num 5 }],
       sortColumn := "howMany", sortDirection := .desc } : State).sortDirection = .desc ∧
      List.Sorted
        (fun a b => (sortKey asciiHost "howMany" b).le (sortKey asciiHost "howMany" a))
        (sortedData asciiHost
          { filteredSightings := [{ howMany := .num 2 }, { }, { howMany := .num 5 }],
            sortColumn := "howMany", sortDirection := .desc }) :=
  ⟨rfl, (updateTable_sort_spec asciiHost
    { filteredSightings := [{ howMany := .num 2 }, { }, { howMany := .num 5 }],
      sortColumn := "howMany", sortDirection := .desc } {} "howMany" "" "" 0 0).2.2.2.2.2.1
    rfl⟩

/-- C6: when no two records of the sequence have equal comparison keys for the
column, the reverse of the ascending sort is the descending sort. -/
theorem reverse_asc_eq_desc (h : Host) (col : String) (l : List Sighting)
    (hnodup : (l.map (sortKey h col)).Nodup) :
    (sortSightings h col .asc l).reverse = sortSightings h col .desc l := by
  have hp : (sortSightings h col .asc l).reverse.Perm (sortSightings h col .desc l) :=
    ((List.reverse_perm _).trans (sortSightings_perm h col .asc l)).trans
      (sortSightings_perm h col .desc l).symm
  have hs1 : List.Sorted (fun x y : SortKey => y.le x)
      ((sortSightings h col .asc l).reverse.map (sortKey h col)) := by
    rw [List.Sorted, List.pairwise_map, List.pairwise_reverse]
    exact sortSightings_asc_sorted h col l
  have hs2 : List.Sorted (fun x y : SortKey => y.le x)
      ((sortSightings h col .desc l).map (sortKey h col)) := by
    rw [List.Sorted, List.pairwise_map]
    exact sortSightings_desc_sorted h col l
  haveI : IsAntisymm SortKey (fun x y : SortKey => y.le x) :=
    ⟨fun _ _ h1 h2 => sortKey_le_antisymm h2 h1⟩
  have hm := List.eq_of_perm_of_sorted (hp.map (sortKey h col)) hs1 hs2
  apply eq_of_map_eq_of_injOn (sortKey h col) _ _ hm
  intro x hx y hy hxy
  have hx1 : x ∈ l :=
    (sortSightings_perm h col .asc l).mem_iff.1 (List.mem_reverse.1 hx)
  have hy1 : y ∈ l := (sortSightings_perm h col .desc l).mem_iff.1 hy
  exact List.inj_on_of_nodup_map hnodup hx1 hy1 hxy

/-- The hypothesis of `reverse_asc_eq_desc` holds for three records with
pairwise different counts. -/
theorem reverse_asc_eq_desc_witness :
    (List.map (sortKey asciiHost "howMany")
        [{ howMany := .num 2 }, { howMany := .num 7 }, { howMany := .num 5 }]).Nodup ∧
      (sortSightings asciiHost "howMany" .asc
        [{ howMany := .num 2 }, { howMany := .num 7 }, { howMany := .num 5 }]).reverse =
      sortSightings asciiHost "howMany" .desc
        [{ howMany := .num 2 }, { howMany := .num 7 }, { howMany := .num 5 }] :=
  ⟨by decide, reverse_asc_eq_desc asciiHost "howMany" _ (by decide)⟩

/-- Amended C5: when sorting on the count column, a record whose observed
count is absent is compared exactly as a record whose count is 0: its sort
key is 0, so it ties with records of count 0 and is ordered before records of
count 1 and of count 2 in ascending order. -/
theorem absent_count_compares_as_zero (h : Host) (dir : SortDirection) (r r' : Sighting)
    (hr : r.howMany = .undefined) :
    sortKey h "howMany" r = .num 0 ∧
      compareFn h "howMany" dir r r' =
        compareFn h "howMany" dir { r with howMany := .num 0 } r' ∧
      compareFn h "howMany" dir r' r =
        compareFn h "howMany" dir r' { r with howMany := .num 0 } ∧
      compareFn h "howMany" .asc r { r' with howMany := .num 0 } = 0 ∧
      compareFn h "howMany" .asc r { r' with howMany := .num 1 } = -1 ∧
      compareFn h "howMany" .asc r { r' with howMany := .num 2 } = -1 := by
  have k0 : countKey h r = 0 := by
    simp [countKey, jsOr, hr, truthy, toNumber, h.stringToNumber_empty, numOrZero]
  have k1 : countKey h { r with howMany := .num 0 } = 0 := by
    simp [countKey, jsOr, truthy, toNumber, h.stringToNumber_empty, numOrZero]
  have k2 : countKey h { r' with howMany := .num 0 } = 0 := by
    simp [countKey, jsOr, truthy, toNumber, h.stringToNumber_empty, numOrZero]
  have k3 : countKey h { r' with howMany := .num 1 } = 1 := by
    simp [countKey, jsOr, truthy, toNumber, numOrZero]
  have k4 : countKey h { r' with howMany := .num 2 } = 2 := by
    simp [countKey, jsOr, truthy, toNumber, numOrZero]
  refine ⟨?_, ?_, ?_, ?_, ?_, ?_⟩
  · simp [sortKey, k0]
  · rw [compareFn_count, compareFn_count, k0, k1]
  · rw [compareFn_count, compareFn_count, k0, k1]
  · rw [compareFn_count, k0, k2]; simp [compareResult]
  · rw [compareFn_count, k0, k3]; simp [compareResult]
  · rw [compareFn_count, k0, k4]; simp [compareResult]

/-- The hypothesis of `absent_count_compares_as_zero` holds for a record
without any field. -/
theorem absent_count_compares_as_zero_witness :
    ({} : Sighting).howMany = .undefined ∧
      compareFn asciiHost "howMany" .asc {} { howMany := .num 1 } = -1 :=
  ⟨rfl, (absent_count_compares_as_zero asciiHost .asc {} {} rfl).2.2.2.2.1⟩

/-- C5 as stated fails: the sort key of a record without a count is 0, not 1;
against a record of count 1 it compares as smaller instead of tying, against a
record of count 0 it ties instead of coming after, and ascending order puts it
before both. -/
theorem absent_count_not_one :
    sortKey asciiHost "howMany" {} = .num 0 ∧
      sortKey asciiHost "howMany" { howMany := .num 1 } = .num 1 ∧
      compareFn asciiHost "howMany" .asc {} { howMany := .num 1 } = -1 ∧
      compareFn asciiHost "howMany" .asc {} { howMany := .num 0 } = 0 ∧
      sortSightings asciiHost "howMany" .asc
        [{ howMany := .num 1 }, { howMany := .num 0 }, {}] =
        [{ howMany := .num 0 }, {}, { howMany := .num 1 }] := by
  decide

/-! ## Rendering: claims C3 and C4 -/

theorem escapeChar_no_markup (c : Char) : '<' ∉ escapeChar c ∧ '>' ∉ escapeChar c := by
  unfold escapeChar
  split_ifs with h1 h2 h3 h4
  · decide
  · decide
  · decide
  · decide
  · simp only [List.mem_singleton]
    exact ⟨fun e => h2 e.symm, fun e => h3 e.symm⟩

/-- What `escapeHtml` returns holds neither `<` nor `>`. -/
theorem escapeHtml_no_markup (h : Host) (v : JVal) :
    '<' ∉ (escapeHtml h v).data ∧ '>' ∉ (escapeHtml h v).data := by
  unfold escapeHtml
  split
  · simp
  · simp only [List.mem_flatMap, not_exists, not_and]
    exact ⟨fun c _ => (escapeChar_no_markup c).1, fun c _ => (escapeChar_no_markup c).2⟩

/-- What `updateMap` and `updateTable` produce in general: one marker for each
record whose latitude and longitude are both truthy, one row for each record. -/
theorem markers_and_rows (h : Host) (st : State) :
    (updateMap h st).markers.length =
        (st.filteredSightings.filter (fun s => truthy s.lat && truthy s.lng)).length ∧
      (tableRows h st).length = st.filteredSightings.length := by
  constructor
  · rw [updateMap_markers]
    induction st.filteredSightings with
    | nil => rfl
    | cons s l ih =>
      by_cases hs : (truthy s.lat && truthy s.lng) = true
      · simp [List.filterMap_cons, List.filter_cons, markerOf, hs, ih]
      · simp [List.filterMap_cons, List.filter_cons, markerOf, hs, ih]
  · simp [tableRows, sortedData, (sortSightings_perm h _ _ _).length_eq]

set_option maxRecDepth 100000 in
/-- C3 on the code: the common name goes through `escapeHtml`, but the species
link and the checklist link are interpolated as they are, so a `"` in a link
closes the `href` attribute and the markup after it reaches the table row
written by `updateTable` and the popup of the marker added by `updateMap`. -/
theorem links_inserted_unescaped :
    includes (rowHtml asciiHost injectedSighting) "&lt;b&gt;Gull&lt;/b&gt;" = true ∧
      includes (rowHtml asciiHost injectedSighting)
        "<a href=\"\"><script>alert(1)</script>\"" = true ∧
      includes (rowHtml asciiHost injectedSighting) "<a href=\"\"><img src=x>\"" = true ∧
      includes (popupContent asciiHost injectedSighting)
        "<a href=\"\"><script>alert(1)</script>\"" = true ∧
      includes (popupContent asciiHost injectedSighting)
        "<a href=\"\"><img src=x>\"" = true ∧
      List.map (fun m => m.popup)
          (updateMap asciiHost { filteredSightings := [injectedSighting] }).markers =
        [popupContent asciiHost injectedSighting] ∧
      (updateTable asciiHost { filteredSightings := [injectedSighting] }).sightingsBody =
        rowHtml asciiHost injectedSighting := by
  decide

/-- C4 on the code: a record with latitude 0 and longitude -75 has both
coordinates present, yet `updateMap` places no marker for it, because the test
`sighting.lat && sighting.lng` reads the number 0 as absent; `updateTable`
renders its row. -/
theorem zero_coordinate_not_mapped :
    equatorSighting.lat ≠ .undefined ∧ equatorSighting.lng ≠ .undefined ∧
      (updateMap asciiHost { filteredSightings := [equatorSighting] }).markers = [] ∧
      (tableRows asciiHost { filteredSightings := [equatorSighting] }).length = 1 := by
  decide

end EBird
